import Mathlib

/-!
Verification of the social-news ingestion and drafting pipeline.

The definitions below are a shallow embedding of the repository's
JavaScript handlers:
* the collector handler of `src/unnamed/part_001` (identifier
  normalisation, existing-id filter, vote-threshold filter, batch Map
  collapse, per-record insert loop with 23505 classification, response
  payload);
* the vote-threshold filter variant of the first handler in
  `src/api/collect-news.js`;
* the draft-generation handler of `src/api/generate-draft.js`
  (bearer-secret check, payload validation, learning-context fetch,
  Gemini call with 429 detection, draft insert);
* the dashboard lifecycle actions `approveDraft` / `rejectDraft` of
  `src/unnamed/part_000`.

External effects (the Supabase store, the Gemini model, the draft
trigger) are passed in explicitly as state or as outcome oracles.
-/

namespace SocialNews

/-- Upstream identifiers arrive either as numbers or as strings
(`p.id` in the JS source). -/
inductive JsId where
  | num (n : Int)
  | str (s : String)
deriving DecidableEq, Repr

/-- `String(p.id)`: the canonical string form of an identifier. -/
def JsId.toStr : JsId → String
  | .num n => toString n
  | .str s => s

/-- The vote-category counts of a candidate (`p.votes`); every field is
optional, mirroring `votes.positive || 0` defaulting in the source. -/
structure Votes where
  positive : Option Nat := none
  negative : Option Nat := none
  important : Option Nat := none
  saved : Option Nat := none
  lol : Option Nat := none
deriving DecidableEq, Repr

/-- A raw candidate from the upstream feed. -/
structure Post where
  id : JsId
  title : Option String := none
  url : Option String := none
  sourceTitle : Option String := none
  votes : Option Votes := none
  sentiment : Option String := none
deriving DecidableEq, Repr

/-- JS `o || d` on an optional string: `null`/`undefined` and the empty
string are falsy and yield the default. -/
def jsOrStr (o : Option String) (d : String) : String :=
  match o with
  | none => d
  | some s => if s = "" then d else s

/-- Sum of the five vote-category counts, a missing `votes` object and
missing individual counts contributing zero (`const votes = p.votes || {}`
followed by `(votes.positive || 0) + ...` in `src/unnamed/part_001`). -/
def totalVotes : Option Votes → Nat
  | none => 0
  | some v =>
      v.positive.getD 0 + v.negative.getD 0 + v.important.getD 0 +
        v.saved.getD 0 + v.lol.getD 0

/-- The vote-threshold filter of `src/unnamed/part_001` lines 57-63:
`totalVotes >= 20` with `p.votes || {}`. -/
def passesThreshold001 (p : Post) : Bool :=
  decide (20 ≤ totalVotes p.votes)

/-- The vote-threshold filter variant of the first handler in
`src/api/collect-news.js` lines 71-91: a candidate without a votes
object is included (`return true`), otherwise `totalVotes >= 3`. -/
def passesThresholdCN (p : Post) : Bool :=
  match p.votes with
  | none => true
  | some v => decide (3 ≤ totalVotes (some v))

/-- The engagement-threshold admission rule as the specification words
it: a candidate with no vote object at all passes by policy default,
otherwise the summed vote-category counts must reach the threshold. -/
def specThresholdAdmits (t : Nat) (p : Post) : Bool :=
  match p.votes with
  | none => true
  | some v => decide (t ≤ totalVotes (some v))

/-- A stored NewsItem row of the `trending_news` table, shaped by the
`.map` of `src/unnamed/part_001` lines 64-71. -/
structure NewsRecord where
  cp_id : String
  title : String
  url : String
  source_name : String
  upvotes : Nat
  sentiment : String
deriving DecidableEq, Repr

/-- The candidate-to-row mapping of `src/unnamed/part_001` lines 64-71. -/
def toRecord (p : Post) : NewsRecord :=
  { cp_id := p.id.toStr
    title := jsOrStr p.title "Untitled"
    url := jsOrStr p.url ""
    source_name := jsOrStr p.sourceTitle "Unknown"
    upvotes := match p.votes with | none => 0 | some v => v.positive.getD 0
    sentiment := jsOrStr p.sentiment "neutral" }

/-- `posts.map(p => String(p.id))`. -/
def newCpIds (posts : List Post) : List String :=
  posts.map (fun p => p.id.toStr)

/-- The batch existing-id lookup: the stored rows whose `cp_id` is among
the batch ids, projected to their (string) ids. -/
def existingCpIds (store : List NewsRecord) (posts : List Post) : List String :=
  (store.filter (fun r => (newCpIds posts).contains r.cp_id)).map (fun r => r.cp_id)

/-- Stages 1-4 of the pipeline (`src/unnamed/part_001` lines 55-71):
drop candidates whose normalised id already exists, drop candidates
below the vote threshold, map the survivors to rows. -/
def newsToInsert001 (store : List NewsRecord) (posts : List Post) : List NewsRecord :=
  (((posts.filter
        (fun p => !((existingCpIds store posts).contains p.id.toStr))).filter
      passesThreshold001).map toRecord)

/-- One `Map.set` step of building `new Map(items.map(i => [i.cp_id, i]))`:
an existing key keeps its position and takes the new value, a fresh key
is appended. -/
def mapUpsert (m : List (String × NewsRecord)) (k : String) (v : NewsRecord) :
    List (String × NewsRecord) :=
  if m.any (fun e => e.1 == k) then
    m.map (fun e => if e.1 == k then (k, v) else e)
  else m ++ [(k, v)]

/-- `Array.from(new Map(items.map(i => [i.cp_id, i])).values())`:
within-batch collapse keeping one survivor per id. -/
def mapCollapse (items : List NewsRecord) : List NewsRecord :=
  (items.foldl (fun m it => mapUpsert m it.cp_id it) []).map (fun e => e.2)

/-- The full admissible set of `src/unnamed/part_001` line 74. -/
def uniqueNewsToInsert001 (store : List NewsRecord) (posts : List Post) :
    List NewsRecord :=
  mapCollapse (newsToInsert001 store posts)

/-- Outcome of one `supabase.from('trending_news').insert(...)` call:
success, unique-constraint violation (code 23505), or any other
persistence error. -/
inductive InsertOutcome where
  | ok
  | dupKey
  | otherErr
deriving DecidableEq, Repr

/-- State threaded through the insert loop of `src/unnamed/part_001`
lines 86-124: the store plus the `successCount` / `duplicateCount`
counters, and a count of draft-trigger failures that the source only
logs (`.catch(err => console.error(...))`). -/
structure WriterState where
  store : List NewsRecord
  inserted : Nat
  dups : Nat
  draftFails : Nat
deriving DecidableEq, Repr

/-- Whether the store already holds a row with the given id. -/
def hasId (store : List NewsRecord) (c : String) : Bool :=
  store.any (fun x => x.cp_id == c)

/-- The database's answer to one insert: the uniqueness constraint on
`cp_id` fires exactly when a row with that id is already stored;
otherwise an external oracle decides between success and any other
persistence error. -/
def insertResult (insertO : NewsRecord → InsertOutcome)
    (store : List NewsRecord) (r : NewsRecord) : InsertOutcome :=
  if hasId store r.cp_id then .dupKey else insertO r

/-- One iteration of the insert loop (`src/unnamed/part_001` lines
89-124): 23505 counts a benign duplicate and continues; any other
insert error is logged and the loop continues; a successful insert
bumps `successCount` and fires the draft trigger, whose failure is
caught and only logged. -/
def writerStep (insertO : NewsRecord → InsertOutcome) (draftO : NewsRecord → Bool)
    (s : WriterState) (r : NewsRecord) : WriterState :=
  match insertResult insertO s.store r with
  | .dupKey => { s with dups := s.dups + 1 }
  | .otherErr => s
  | .ok =>
      let s1 : WriterState :=
        { s with store := s.store ++ [r], inserted := s.inserted + 1 }
      if draftO r then s1 else { s1 with draftFails := s1.draftFails + 1 }

/-- The whole insert loop over the admissible records. -/
def writerRun (insertO : NewsRecord → InsertOutcome) (draftO : NewsRecord → Bool)
    (store : List NewsRecord) (records : List NewsRecord) : WriterState :=
  records.foldl (writerStep insertO draftO) ⟨store, 0, 0, 0⟩

/-- The insert oracle of a run in which no external persistence failure
occurs (only the uniqueness constraint can reject). -/
def okInsert : NewsRecord → InsertOutcome := fun _ => .ok

/-- One full collector run of `src/unnamed/part_001`: dedup and filter
the batch against the store, then execute the insert loop. -/
def collectRun001 (insertO : NewsRecord → InsertOutcome) (draftO : NewsRecord → Bool)
    (store : List NewsRecord) (posts : List Post) : WriterState :=
  writerRun insertO draftO store (uniqueNewsToInsert001 store posts)

/-- The success response payload of `src/unnamed/part_001` lines
126-130, as ordered JSON key-value pairs. -/
def collectorResponse (w : WriterState) : List (String × String) :=
  [("message", "Collector ran successfully."),
   ("inserted", toString w.inserted),
   ("skipped_duplicates", toString w.dups)]

/-- A row of the `draft_posts` table, with the lifecycle fields touched
by the dashboard actions of `src/unnamed/part_000`. -/
structure Draft where
  gemini_draft : String
  gemini_insight : String
  final_approved_post : Option String
  is_reviewed : Bool
  posted_date : Option String
deriving DecidableEq, Repr

/-- The draft store, keyed by the system-generated draft id. -/
def DraftStore := String → Option Draft

/-- `approveDraft` of `src/unnamed/part_000` lines 123-144: an
`update(...).eq('id', id)` setting `final_approved_post`, `is_reviewed`
and `posted_date` together on whatever row carries the id; a missing
row is untouched and nothing is created. -/
def approveDraft (st : DraftStore) (id newText nowTs : String) : DraftStore :=
  fun i =>
    if i = id then
      (st i).map (fun d =>
        { d with
          final_approved_post := some newText
          is_reviewed := true
          posted_date := some nowTs })
    else st i

/-- `rejectDraft` of `src/unnamed/part_000` lines 147-164: a
`delete().eq('id', id)` removing whatever row carries the id. -/
def rejectDraft (st : DraftStore) (id : String) : DraftStore :=
  fun i => if i = id then none else st i

/-- The draft insert of `src/api/generate-draft.js` lines 159-165: a
fresh row with only `news_id`, `gemini_draft` and `gemini_insight` set,
so the lifecycle fields take their defaults (`is_reviewed = false`,
`posted_date` and `final_approved_post` null). -/
def insertDraftRow (st : DraftStore) (id draftText insightText : String) : DraftStore :=
  fun i =>
    if i = id then some ⟨draftText, insightText, none, false, none⟩ else st i

/-- A row returned by the learning-context query of
`src/api/generate-draft.js` lines 56-61. -/
structure DraftRow where
  final_approved_post : Option String
  engagement_score : Option Int
deriving DecidableEq, Repr

/-- The `.not('final_approved_post', 'is', null)` qualification. -/
def qualifies (r : DraftRow) : Bool :=
  r.final_approved_post.isSome

/-- Descending comparison on nullable scores; a null score sorts first,
matching Postgres `ORDER BY engagement_score DESC` (nulls first). -/
def scoreGe : Option Int → Option Int → Bool
  | none, _ => true
  | some _, none => false
  | some a, some b => decide (b ≤ a)

/-- The row ordering of `.order('engagement_score', ascending: false)`. -/
def scoreRel (a b : DraftRow) : Prop :=
  scoreGe a.engagement_score b.engagement_score = true

instance : DecidableRel scoreRel := fun a b => by
  unfold scoreRel; infer_instance

instance : IsTotal DraftRow scoreRel := by
  constructor
  intro a b
  unfold scoreRel scoreGe
  cases a.engagement_score <;> cases b.engagement_score <;> simp <;> omega

instance : IsTrans DraftRow scoreRel := by
  constructor
  intro a b c
  unfold scoreRel scoreGe
  cases a.engagement_score <;> cases b.engagement_score <;>
    cases c.engagement_score <;> simp <;> omega

/-- The learning-context query of `src/api/generate-draft.js` lines
56-61: non-null `final_approved_post`, ordered by `engagement_score`
descending, limited to 10. -/
def selectorQuery (rows : List DraftRow) : List DraftRow :=
  (List.insertionSort scoreRel (rows.filter qualifies)).take 10

/-- The fixed default learning context (`generate-draft.js` line 52). -/
def defaultContext : String := "None available yet."

/-- JS template interpolation of a nullable number (`null` prints as
the string `null`). -/
def jsShowInt : Option Int → String
  | none => "null"
  | some n => toString n

/-- JS template interpolation of a nullable string. -/
def jsShowStr : Option String → String
  | none => "null"
  | some s => s

/-- One line of the formatted learning context
(`generate-draft.js` lines 67-69). -/
def formatRow (i : Nat) (r : DraftRow) : String :=
  "Successful Post " ++ toString (i + 1) ++ " (Score: " ++
    jsShowInt r.engagement_score ++ "): \"" ++
    jsShowStr r.final_approved_post ++ "\""

/-- The `.map(...).join('\n---\n')` formatting of the query rows. -/
def formatPosts (rows : List DraftRow) : String :=
  String.intercalate "\n---\n" (rows.mapIdx formatRow)

/-- The learning context actually used for generation: the default on a
query failure (the `catch` keeps the initial value) and on zero rows
(the `length > 0` guard), the formatted rows otherwise. -/
def buildLearningContext : Except Unit (List DraftRow) → String
  | .error _ => defaultContext
  | .ok rows => if 0 < rows.length then formatPosts rows else defaultContext

/-- Environment of the draft-generation handler. -/
structure GenEnv where
  webhookSecret : Option String
deriving DecidableEq, Repr

/-- The `record` object of the webhook body. -/
structure NewsPayload where
  id : JsId
  title : Option String := none
  url : Option String := none
  sentiment : Option String := none
deriving DecidableEq, Repr

/-- An inbound draft-generation request. -/
structure GenRequest where
  method : String
  authHeader : Option String
  record : Option NewsPayload
deriving DecidableEq, Repr

/-- Outcome of the Gemini call: a parsed structured response, or an
error carrying its message (rate limiting surfaces as a message
containing `429`). -/
inductive GeminiOutcome where
  | ok (insight : String) (draftTweet : String)
  | err (msg : String)
deriving DecidableEq, Repr

/-- The observable result of one draft-generation invocation: the HTTP
status, which external calls were reached (the learning-context query,
the model call, the draft insert), the learning context embedded in the
prompt when generation was reached, and the `retry_after` value of a
429 response. -/
structure GenResult where
  status : Nat
  learningQueried : Bool
  contextUsed : Option String
  modelCalled : Bool
  draftWritten : Bool
  retryAfter : Option Nat
deriving DecidableEq, Repr

/-- JS falsiness of an optional string (`undefined`/`null`/`""`). -/
def jsFalsy : Option String → Bool
  | none => true
  | some s => s == ""

/-- JS template interpolation of the secret:
`` `Bearer ${process.env.WEBHOOK_SECRET_KEY}` `` prints a missing
variable as the string `undefined`. -/
def interpSecret : Option String → String
  | none => "undefined"
  | some s => s

/-- Whether `needle` occurs as a contiguous sublist of `hay`. -/
def listHasSub (needle hay : List Char) : Bool :=
  (List.range (hay.length + 1)).any (fun i => needle.isPrefixOf (hay.drop i))

/-- `e.message.includes('429')`. -/
def strHas429 (s : String) : Bool :=
  listHasSub "429".data s.data

/-- The draft-generation handler of `src/api/generate-draft.js`:
method guard, bearer-secret check, payload validation, learning-context
fetch, Gemini call with 429-message detection, draft insert. -/
def generateDraftHandler (env : GenEnv) (req : GenRequest)
    (learning : Except Unit (List DraftRow)) (gemini : GeminiOutcome)
    (insertOk : Bool) : GenResult :=
  if req.method != "POST" then ⟨405, false, none, false, false, none⟩
  else if jsFalsy req.authHeader ||
      req.authHeader != some ("Bearer " ++ interpSecret env.webhookSecret) then
    ⟨401, false, none, false, false, none⟩
  else
    match req.record with
    | none => ⟨400, false, none, false, false, none⟩
    | some item =>
      if jsFalsy item.title then ⟨400, false, none, false, false, none⟩
      else
        match gemini with
        | .err msg =>
            if strHas429 msg then
              ⟨429, true, some (buildLearningContext learning), true, false, some 60⟩
            else ⟨500, true, some (buildLearningContext learning), true, false, none⟩
        | .ok _ _ =>
            if insertOk then
              ⟨200, true, some (buildLearningContext learning), true, true, none⟩
            else ⟨500, true, some (buildLearningContext learning), true, false, none⟩

/-- A candidate carrying no vote object at all. -/
def noVotesPost : Post := { id := .num 1, title := some "t" }

/-- A candidate whose summed vote counts are exactly 20. -/
def boundaryPost : Post :=
  { id := .num 2, votes := some { positive := some 12, important := some 8 } }

/-- A candidate with a numeric id 7. -/
def p7n : Post := { id := .num 7, votes := some { positive := some 25 } }

/-- A candidate with the string id "7", duplicating `p7n`. -/
def p7s : Post := { id := .str "7", votes := some { positive := some 30 } }

/-- A draft store holding one pending draft under id "a". -/
def pendingStore : DraftStore :=
  fun i => if i = "a" then some ⟨"dr", "in", none, false, none⟩ else none

/-- The empty draft store. -/
def emptyDraftStore : DraftStore := fun _ => none

/-- The per-draft lifecycle invariant: the reviewed flag, the approval
timestamp and the final approved text are set together. -/
def draftInv (d : Draft) : Prop :=
  (d.is_reviewed = true ↔ d.posted_date.isSome = true) ∧
    (d.is_reviewed = true ↔ d.final_approved_post.isSome = true)

/-- The invariant over a whole draft store. -/
def storeInv (st : DraftStore) : Prop :=
  ∀ i d, st i = some d → draftInv d

/-- A webhook payload item with a non-empty title. -/
def okItem : NewsPayload := { id := .str "n1", title := some "Title" }

/-! ## Theorems -/

/-- C1 counterexample: a candidate with no vote object at all is dropped
by the vote-threshold filter of `src/unnamed/part_001` (its vote sum is
zero, below the configured threshold 20), although the specification's
admission rule would let it pass by policy default; the full pipeline
likewise admits no record for it. -/
theorem threshold_no_votes_dropped_cex :
    passesThreshold001 noVotesPost = false
    ∧ specThresholdAdmits 20 noVotesPost = true
    ∧ uniqueNewsToInsert001 [] [noVotesPost] = [] := by
  refine ⟨by decide, by decide, by decide⟩

/-- C1 (amended): the `collect-news.js` variant admits a candidate
exactly as the specification words it at threshold 3 (no vote object
passes by default, otherwise the summed counts must reach the
threshold); the `part_001` filter admits exactly the candidates whose
summed vote-category counts (missing counts contributing zero) reach
20, the boundary of exactly 20 included, and agrees with the
specification rule only for candidates that do carry a vote object — a
candidate with no vote object at all is dropped, not passed. -/
theorem threshold_filter_amended (p : Post) :
    (passesThresholdCN p = specThresholdAdmits 3 p)
    ∧ (passesThreshold001 p = true ↔ 20 ≤ totalVotes p.votes)
    ∧ (p.votes ≠ none → passesThreshold001 p = specThresholdAdmits 20 p)
    ∧ (p.votes = none → passesThreshold001 p = false) := by
  refine ⟨?_, ?_, ?_, ?_⟩
  · cases hv : p.votes <;>
      simp [passesThresholdCN, specThresholdAdmits, hv]
  · simp [passesThreshold001]
  · intro hv
    cases hv2 : p.votes with
    | none => exact absurd hv2 hv
    | some v => simp [passesThreshold001, specThresholdAdmits, hv2]
  · intro hv
    simp [passesThreshold001, hv, totalVotes]

/-- C1 witness: at the boundary candidate with vote sum exactly 20 the
`part_001` filter admits and agrees with the specification rule, and at
the candidate with no vote object it rejects. -/
theorem threshold_filter_amended_witness :
    passesThreshold001 boundaryPost = specThresholdAdmits 20 boundaryPost
    ∧ passesThreshold001 boundaryPost = true
    ∧ passesThreshold001 noVotesPost = false :=
  ⟨(threshold_filter_amended boundaryPost).2.2.1 (by decide),
   by decide,
   (threshold_filter_amended noVotesPost).2.2.2 (by decide)⟩

/-- The association list built by the batch Map collapse keeps its keys
distinct and stores under each key a record carrying that key as id. -/
def collapseInv (m : List (String × NewsRecord)) : Prop :=
  (m.map Prod.fst).Nodup ∧ ∀ e ∈ m, (e : String × NewsRecord).2.cp_id = e.1

theorem mapUpsert_inv (m : List (String × NewsRecord)) (k : String)
    (v : NewsRecord) (hv : v.cp_id = k) (h : collapseInv m) :
    collapseInv (mapUpsert m k v) := by
  obtain ⟨h1, h2⟩ := h
  unfold mapUpsert
  split
  · constructor
    · have hkeys : (m.map (fun e => if e.1 == k then (k, v) else e)).map Prod.fst
          = m.map Prod.fst := by
        rw [List.map_map]
        apply List.map_congr_left
        intro e _
        by_cases hek : e.1 == k
        · simp only [Function.comp_apply, hek, if_pos]
          exact (eq_of_beq hek).symm
        · simp only [Function.comp_apply]
          rw [if_neg (by simpa using hek)]
      rw [hkeys]
      exact h1
    · intro e he
      obtain ⟨e', he', rfl⟩ := List.mem_map.mp he
      by_cases hek : e'.1 == k
      · simp [hek, hv]
      · simpa [hek] using h2 e' he'
  · next hany =>
    constructor
    · rw [List.map_append]
      refine (h1.append (List.nodup_singleton k)) ?_
      intro a ha hb
      simp only [List.map_cons, List.map_nil, List.mem_singleton] at hb
      subst hb
      obtain ⟨e, he, rfl⟩ := List.mem_map.mp ha
      exact hany (List.any_eq_true.mpr ⟨e, he, beq_self_eq_true e.1⟩)
    · intro e he
      rcases List.mem_append.mp he with h' | h'
      · exact h2 e h'
      · simp only [List.mem_singleton] at h'
        subst h'
        exact hv

theorem foldl_upsert_inv (items : List NewsRecord)
    (m : List (String × NewsRecord)) (h : collapseInv m) :
    collapseInv (items.foldl (fun m it => mapUpsert m it.cp_id it) m) := by
  induction items generalizing m with
  | nil => exact h
  | cons it its ih => exact ih _ (mapUpsert_inv _ _ _ rfl h)

theorem mapCollapse_ids_nodup (items : List NewsRecord) :
    ((mapCollapse items).map (fun r => r.cp_id)).Nodup := by
  have h := foldl_upsert_inv items [] ⟨List.nodup_nil, by simp⟩
  unfold mapCollapse
  rw [List.map_map]
  have heq : (items.foldl (fun m it => mapUpsert m it.cp_id it) []).map
        ((fun r => r.cp_id) ∘ (fun e => e.2))
      = (items.foldl (fun m it => mapUpsert m it.cp_id it) []).map Prod.fst := by
    apply List.map_congr_left
    intro e he
    exact h.2 e he
  rw [heq]
  exact h.1

/-- C2: whenever a batch carries the same upstream identifier more than
once — in any representation, numeric or string — the admissible set
produced by the dedup and filter pipeline of `src/unnamed/part_001`
contains at most one record for that identifier. -/
theorem dedup_batch_at_most_one (store : List NewsRecord) (posts : List Post)
    (eid : String)
    (hdup : 2 ≤ posts.countP (fun p => p.id.toStr == eid)) :
    (uniqueNewsToInsert001 store posts).countP (fun r => r.cp_id == eid) ≤ 1 := by
  have hnd := mapCollapse_ids_nodup (newsToInsert001 store posts)
  have hcount : ∀ l : List NewsRecord,
      l.countP (fun r => r.cp_id == eid) = (l.map (fun r => r.cp_id)).count eid := by
    intro l
    rw [List.count, List.countP_map]
    rfl
  rw [uniqueNewsToInsert001, hcount]
  exact List.nodup_iff_count_le_one.mp hnd eid

/-- C2 witness: a batch carrying the identifier 7 both as a number and
as a string yields at most one admissible record for "7". -/
theorem dedup_batch_at_most_one_witness :
    2 ≤ ([p7n, p7s] : List Post).countP (fun p => p.id.toStr == "7")
    ∧ (uniqueNewsToInsert001 [] [p7n, p7s]).countP (fun r => r.cp_id == "7") ≤ 1 :=
  ⟨by decide, dedup_batch_at_most_one [] [p7n, p7s] "7" (by decide)⟩

theorem hasId_iff (store : List NewsRecord) (c : String) :
    hasId store c = true ↔ ∃ x ∈ store, (x : NewsRecord).cp_id = c := by
  simp [hasId, List.any_eq_true]

theorem writerStep_store_mono (insertO : NewsRecord → InsertOutcome)
    (draftO : NewsRecord → Bool) (s : WriterState) (r : NewsRecord) (c : String)
    (h : hasId s.store c = true) :
    hasId (writerStep insertO draftO s r).store c = true := by
  unfold writerStep
  cases hir : insertResult insertO s.store r
  · simp only []
    split <;> simp_all [hasId, List.any_append]
  · exact h
  · exact h

theorem writerRun_store_mono (insertO : NewsRecord → InsertOutcome)
    (draftO : NewsRecord → Bool) (rs : List NewsRecord) (s : WriterState)
    (c : String) (h : hasId s.store c = true) :
    hasId ((rs.foldl (writerStep insertO draftO) s).store) c = true := by
  induction rs generalizing s with
  | nil => exact h
  | cons a as ih => exact ih _ (writerStep_store_mono insertO draftO s a c h)

theorem writerRun_inserts_ids (draftO : NewsRecord → Bool) (rs : List NewsRecord)
    (s : WriterState) (r : NewsRecord) (hr : r ∈ rs) :
    hasId ((rs.foldl (writerStep okInsert draftO) s).store) r.cp_id = true := by
  induction rs generalizing s with
  | nil => cases hr
  | cons a as ih =>
    rw [List.foldl_cons]
    rcases List.mem_cons.mp hr with h | h
    · subst h
      apply writerRun_store_mono
      cases hir : insertResult okInsert s.store r with
      | dupKey =>
        unfold writerStep
        rw [hir]
        unfold insertResult at hir
        by_cases hd : hasId s.store r.cp_id
        · exact hd
        · rw [if_neg (by simpa using hd)] at hir
          cases hir
      | otherErr =>
        unfold insertResult okInsert at hir
        split at hir <;> cases hir
      | ok =>
        unfold writerStep
        rw [hir]
        simp only []
        split <;>
          · rw [hasId_iff]
            exact ⟨r, by simp, rfl⟩
    · exact ih _ h

theorem mapUpsert_key_intro (m : List (String × NewsRecord)) (k : String)
    (v : NewsRecord) (c : String)
    (h : (∃ e ∈ m, (e : String × NewsRecord).1 = c) ∨ k = c) :
    ∃ e ∈ mapUpsert m k v, (e : String × NewsRecord).1 = c := by
  unfold mapUpsert
  split
  · next hany =>
    rcases h with ⟨e, he, hec⟩ | rfl
    · refine ⟨if e.1 == k then (k, v) else e, List.mem_map_of_mem _ he, ?_⟩
      by_cases hek : e.1 == k
      · simp only [hek, if_pos]
        rw [← eq_of_beq hek]
        exact hec
      · rw [if_neg (by simpa using hek)]
        exact hec
    · obtain ⟨e, he, hek⟩ := List.any_eq_true.mp hany
      refine ⟨if e.1 == k then (k, v) else e, List.mem_map_of_mem _ he, ?_⟩
      simp [hek]
  · next hany =>
    rcases h with ⟨e, he, hec⟩ | rfl
    · exact ⟨e, List.mem_append_left _ he, hec⟩
    · exact ⟨(k, v), List.mem_append_right _ (List.mem_singleton_self _), rfl⟩

theorem foldl_upsert_key_of (items : List NewsRecord)
    (m : List (String × NewsRecord)) (c : String)
    (h : (∃ e ∈ m, (e : String × NewsRecord).1 = c)
      ∨ ∃ x ∈ items, (x : NewsRecord).cp_id = c) :
    ∃ e ∈ items.foldl (fun m it => mapUpsert m it.cp_id it) m,
      (e : String × NewsRecord).1 = c := by
  induction items generalizing m with
  | nil =>
    rcases h with h | ⟨x, hx, _⟩
    · exact h
    · cases hx
  | cons it its ih =>
    rw [List.foldl_cons]
    apply ih
    rcases h with hm | ⟨x, hx, hxc⟩
    · exact Or.inl (mapUpsert_key_intro _ _ _ _ (Or.inl hm))
    · rcases List.mem_cons.mp hx with rfl | hx'
      · exact Or.inl (mapUpsert_key_intro _ _ _ _ (Or.inr hxc))
      · exact Or.inr ⟨x, hx', hxc⟩

theorem mapCollapse_key_of (items : List NewsRecord) (c : String)
    (h : ∃ x ∈ items, (x : NewsRecord).cp_id = c) :
    ∃ y ∈ mapCollapse items, (y : NewsRecord).cp_id = c := by
  have hinv := foldl_upsert_inv items [] ⟨List.nodup_nil, by simp⟩
  obtain ⟨e, he, hec⟩ := foldl_upsert_key_of items [] c (Or.inr h)
  exact ⟨e.2, List.mem_map_of_mem _ he, by rw [hinv.2 e he, hec]⟩

theorem mem_existingCpIds (store : List NewsRecord) (posts : List Post)
    (c : String) :
    c ∈ existingCpIds store posts
      ↔ ((∃ x ∈ store, (x : NewsRecord).cp_id = c) ∧ c ∈ newCpIds posts) := by
  unfold existingCpIds
  constructor
  · intro hc
    obtain ⟨r, hr, rfl⟩ := List.mem_map.mp hc
    obtain ⟨hr0, hcon⟩ := List.mem_filter.mp hr
    exact ⟨⟨r, hr0, rfl⟩, List.elem_iff.mp hcon⟩
  · rintro ⟨⟨x, hx, rfl⟩, hc⟩
    exact List.mem_map_of_mem _ (List.mem_filter.mpr ⟨hx, List.elem_iff.mpr hc⟩)

theorem second_run_empty (draftO : NewsRecord → Bool) (store : List NewsRecord)
    (posts : List Post) :
    newsToInsert001 (collectRun001 okInsert draftO store posts).store posts = [] := by
  unfold newsToInsert001
  rw [List.map_eq_nil_iff, List.filter_eq_nil_iff]
  intro p hp hB
  obtain ⟨hp0, hA⟩ := List.mem_filter.mp hp
  rw [Bool.not_eq_eq_eq_not, Bool.not_true] at hA
  suffices hmem : p.id.toStr
      ∈ existingCpIds (collectRun001 okInsert draftO store posts).store posts by
    have hcon : (existingCpIds (collectRun001 okInsert draftO store posts).store
          posts).contains p.id.toStr = true :=
      List.elem_iff.mpr hmem
    rw [hcon] at hA
    cases hA
  rw [mem_existingCpIds]
  refine ⟨?_, List.mem_map_of_mem _ hp0⟩
  rw [← hasId_iff]
  by_cases hex : p.id.toStr ∈ existingCpIds store posts
  · obtain ⟨⟨x, hx, hxc⟩, _⟩ := (mem_existingCpIds store posts _).mp hex
    have hstore : hasId store p.id.toStr = true := (hasId_iff _ _).mpr ⟨x, hx, hxc⟩
    exact writerRun_store_mono okInsert draftO _ ⟨store, 0, 0, 0⟩ _ hstore
  · have hAfirst : (!((existingCpIds store posts).contains p.id.toStr)) = true := by
      rcases hcon : (existingCpIds store posts).contains p.id.toStr with _ | _
      · rfl
      · exact absurd (List.elem_iff.mp hcon) hex
    have hmem1 : toRecord p ∈ newsToInsert001 store posts := by
      unfold newsToInsert001
      exact List.mem_map_of_mem _
        (List.mem_filter.mpr ⟨List.mem_filter.mpr ⟨hp0, hAfirst⟩, hB⟩)
    obtain ⟨y, hy, hyc⟩ :=
      mapCollapse_key_of (newsToInsert001 store posts) p.id.toStr
        ⟨toRecord p, hmem1, rfl⟩
    have hrun := writerRun_inserts_ids draftO (uniqueNewsToInsert001 store posts)
      ⟨store, 0, 0, 0⟩ y hy
    rw [hyc] at hrun
    exact hrun

/-- C3: ingestion is idempotent — after a collector run of
`src/unnamed/part_001` in which every attempted insert succeeds,
re-running the collector on the same upstream batch against the
resulting store admits nothing: the batch pre-check filters every
candidate, zero records are inserted, zero conflicts arise, and the
stored set of NewsItems is unchanged. -/
theorem ingestion_idempotent (draftO draftO2 : NewsRecord → Bool)
    (store : List NewsRecord) (posts : List Post) :
    collectRun001 okInsert draftO2
        (collectRun001 okInsert draftO store posts).store posts
      = ⟨(collectRun001 okInsert draftO store posts).store, 0, 0, 0⟩ := by
  have h := second_run_empty draftO store posts
  conv_lhs => rw [collectRun001, uniqueNewsToInsert001, h]
  rfl

/-- C4 counterexample: on a store holding one pending draft under id
"a", `approveDraft` yields an approved (no longer pending) draft, and a
subsequent `rejectDraft` on the same id is not disallowed — it deletes
the approved draft. -/
theorem reject_after_approve_cex :
    ((approveDraft pendingStore "a" "edited" "t1") "a").map
        (fun d => d.is_reviewed) = some true
    ∧ (rejectDraft (approveDraft pendingStore "a" "edited" "t1") "a") "a" = none := by
  exact ⟨by decide, by decide⟩

/-- C4 (amended): the dashboard's store-level operations carry no
pending-state guard — `rejectDraft` after `approveDraft` on the same id
deletes the already-approved draft rather than being disallowed; the
converse half of the claim does hold: a draft deleted by `rejectDraft`
can never subsequently be approved, since `approveDraft` on the deleted
id updates nothing and creates nothing. -/
theorem reject_unguarded_approve_terminal (st : DraftStore) (id t ts : String) :
    rejectDraft (approveDraft st id t ts) id id = none
    ∧ approveDraft (rejectDraft st id) id t ts id = none := by
  constructor
  · simp [rejectDraft]
  · simp [approveDraft, rejectDraft]

/-- C5: every draft-store operation preserves the three-way lifecycle
invariant — the reviewed flag is set iff the approval timestamp is
non-null iff the final approved text is non-null: the generate-draft
insert leaves all three unset, `approveDraft` sets all three together,
and `rejectDraft` removes the row. -/
theorem draft_lifecycle_invariant (st : DraftStore)
    (id draftText insightText newText nowTs : String) (h : storeInv st) :
    storeInv (insertDraftRow st id draftText insightText)
    ∧ storeInv (approveDraft st id newText nowTs)
    ∧ storeInv (rejectDraft st id) := by
  refine ⟨?_, ?_, ?_⟩
  · intro i d hd
    unfold insertDraftRow at hd
    by_cases hi : i = id
    · rw [if_pos hi] at hd
      injection hd with hd
      subst hd
      exact ⟨by simp, by simp⟩
    · rw [if_neg hi] at hd
      exact h i d hd
  · intro i d hd
    unfold approveDraft at hd
    by_cases hi : i = id
    · rw [if_pos hi] at hd
      obtain ⟨d0, _, rfl⟩ := Option.map_eq_some'.mp hd
      exact ⟨by simp, by simp⟩
    · rw [if_neg hi] at hd
      exact h i d hd
  · intro i d hd
    unfold rejectDraft at hd
    by_cases hi : i = id
    · rw [if_pos hi] at hd
      cases hd
    · rw [if_neg hi] at hd
      exact h i d hd

/-- C5 witness: the invariant instantiated on the empty store for all
three operations. -/
theorem draft_lifecycle_invariant_witness :
    storeInv (insertDraftRow emptyDraftStore "a" "d" "i")
    ∧ storeInv (approveDraft emptyDraftStore "a" "t" "now")
    ∧ storeInv (rejectDraft emptyDraftStore "a") :=
  draft_lifecycle_invariant emptyDraftStore "a" "d" "i" "t" "now"
    (by intro i d hd; simp [emptyDraftStore] at hd)

theorem bearer_ne_empty (x : String) : (("Bearer " ++ x) == "") = false := by
  rw [beq_eq_false_iff_ne]
  intro h
  have hlen := congrArg String.length h
  rw [String.length_append] at hlen
  simp at hlen
  exact absurd hlen.1 (by decide)

/-- C6: a draft-generation request whose Authorization header is
missing or does not match the configured bearer secret is answered with
status 401 and no side effect is performed — the learning-context
query, the model call and the draft insert are all unreached. -/
theorem auth_reject_no_side_effects (env : GenEnv) (req : GenRequest)
    (learning : Except Unit (List DraftRow)) (gemini : GeminiOutcome)
    (insertOk : Bool) (s : String)
    (hsec : env.webhookSecret = some s)
    (hm : req.method = "POST")
    (hauth : req.authHeader = none ∨ req.authHeader ≠ some ("Bearer " ++ s)) :
    (generateDraftHandler env req learning gemini insertOk).status = 401
    ∧ (generateDraftHandler env req learning gemini insertOk).learningQueried = false
    ∧ (generateDraftHandler env req learning gemini insertOk).modelCalled = false
    ∧ (generateDraftHandler env req learning gemini insertOk).draftWritten = false := by
  have hcond : (jsFalsy req.authHeader ||
      req.authHeader != some ("Bearer " ++ interpSecret env.webhookSecret)) = true := by
    rcases hauth with h | h
    · rw [h]
      rfl
    · rw [hsec]
      simp [interpSecret, bne_iff_ne, h]
  have heq : generateDraftHandler env req learning gemini insertOk
      = ⟨401, false, none, false, false, none⟩ := by
    unfold generateDraftHandler
    rw [hm, if_neg (by simp), if_pos hcond]
  rw [heq]
  exact ⟨rfl, rfl, rfl, rfl⟩

/-- C6 witness: a concrete POST with a wrong bearer token is rejected
with 401 and no side effects. -/
theorem auth_reject_no_side_effects_witness :
    (generateDraftHandler ⟨some "sec"⟩ ⟨"POST", some "Bearer wrong", some okItem⟩
        (.ok []) (.ok "i" "d") true).status = 401
    ∧ (generateDraftHandler ⟨some "sec"⟩ ⟨"POST", some "Bearer wrong", some okItem⟩
        (.ok []) (.ok "i" "d") true).learningQueried = false
    ∧ (generateDraftHandler ⟨some "sec"⟩ ⟨"POST", some "Bearer wrong", some okItem⟩
        (.ok []) (.ok "i" "d") true).modelCalled = false
    ∧ (generateDraftHandler ⟨some "sec"⟩ ⟨"POST", some "Bearer wrong", some okItem⟩
        (.ok []) (.ok "i" "d") true).draftWritten = false :=
  auth_reject_no_side_effects _ _ _ _ _ "sec" rfl rfl (Or.inr (by decide))

/-- C7 counterexample: a Gemini call failing with a timeout message (no
"429" in it) makes the handler answer 500 with no retry hint — not the
rate-limited 429 with retry_after the claim expects; no draft is
written. -/
theorem gemini_timeout_returns_500_cex :
    (generateDraftHandler ⟨some "sec"⟩ ⟨"POST", some "Bearer sec", some okItem⟩
        (.ok []) (.err "timeout of 30000ms exceeded") true).status = 500
    ∧ (generateDraftHandler ⟨some "sec"⟩ ⟨"POST", some "Bearer sec", some okItem⟩
        (.ok []) (.err "timeout of 30000ms exceeded") true).retryAfter = none
    ∧ (generateDraftHandler ⟨some "sec"⟩ ⟨"POST", some "Bearer sec", some okItem⟩
        (.ok []) (.err "timeout of 30000ms exceeded") true).draftWritten = false := by
  exact ⟨by decide, by decide, by decide⟩

/-- C7 (amended): when a request passes the method, bearer-secret and
payload checks and the model call fails, the handler answers 429 with
retry_after 60 exactly when the error message contains "429", and 500
with no retry hint otherwise — a timeout therefore yields 500, not the
retryable 429; in both branches no draft is written and a structured
result is returned rather than a crash. -/
theorem gemini_error_branch_amended (env : GenEnv) (req : GenRequest)
    (learning : Except Unit (List DraftRow)) (insertOk : Bool) (msg : String)
    (item : NewsPayload)
    (hm : req.method = "POST")
    (ha : req.authHeader = some ("Bearer " ++ interpSecret env.webhookSecret))
    (hr : req.record = some item)
    (ht : jsFalsy item.title = false) :
    (strHas429 msg = true →
      generateDraftHandler env req learning (.err msg) insertOk
        = ⟨429, true, some (buildLearningContext learning), true, false, some 60⟩)
    ∧ (strHas429 msg = false →
      generateDraftHandler env req learning (.err msg) insertOk
        = ⟨500, true, some (buildLearningContext learning), true, false, none⟩) := by
  have hfalsy : jsFalsy (some ("Bearer " ++ interpSecret env.webhookSecret)) = false := by
    unfold jsFalsy
    exact bearer_ne_empty _
  have hpass : generateDraftHandler env req learning (.err msg) insertOk
      = if strHas429 msg then
          ⟨429, true, some (buildLearningContext learning), true, false, some 60⟩
        else ⟨500, true, some (buildLearningContext learning), true, false, none⟩ := by
    unfold generateDraftHandler
    rw [hm, if_neg (by simp), ha, if_neg (by simp [hfalsy]), hr]
    simp only [ht, Bool.false_eq_true, if_false]
  constructor
  · intro h429
    rw [hpass, if_pos h429]
  · intro h429
    rw [hpass, if_neg (by simp [h429])]

/-- C7 witness: a model error whose message contains "429" yields the
429 response with retry_after 60 and no draft written. -/
theorem gemini_error_branch_amended_witness :
    generateDraftHandler ⟨some "sec"⟩ ⟨"POST", some "Bearer sec", some okItem⟩
        (.ok []) (.err "got 429 from upstream") true
      = ⟨429, true, some defaultContext, true, false, some 60⟩ :=
  (gemini_error_branch_amended ⟨some "sec"⟩
      ⟨"POST", some "Bearer sec", some okItem⟩ (.ok []) true
      "got 429 from upstream" okItem rfl (by decide) rfl (by decide)).1
    (by decide)

/-- C10: when the webhook secret is absent from the environment, the
auth check compares against the literal "Bearer undefined", so a POST
carrying exactly that Authorization header passes authentication and
proceeds to full processing — never a 401, with the learning-context
query and the model call both reached. -/
theorem bearer_undefined_bypass (req : GenRequest)
    (learning : Except Unit (List DraftRow)) (gemini : GeminiOutcome)
    (insertOk : Bool) (item : NewsPayload)
    (hm : req.method = "POST")
    (ha : req.authHeader = some "Bearer undefined")
    (hr : req.record = some item)
    (ht : jsFalsy item.title = false) :
    (generateDraftHandler ⟨none⟩ req learning gemini insertOk).status ≠ 401
    ∧ (generateDraftHandler ⟨none⟩ req learning gemini insertOk).learningQueried = true
    ∧ (generateDraftHandler ⟨none⟩ req learning gemini insertOk).modelCalled = true := by
  cases gemini with
  | err msg =>
    have heq : generateDraftHandler ⟨none⟩ req learning (.err msg) insertOk
        = if strHas429 msg then
            ⟨429, true, some (buildLearningContext learning), true, false, some 60⟩
          else ⟨500, true, some (buildLearningContext learning), true, false, none⟩ := by
      unfold generateDraftHandler
      rw [hm, if_neg (by simp), ha, if_neg (by decide), hr]
      simp only [ht, Bool.false_eq_true, if_false]
    rw [heq]
    cases hs : strHas429 msg
    · exact ⟨by simp, by simp, by simp⟩
    · exact ⟨by simp, by simp, by simp⟩
  | ok i d =>
    have heq : generateDraftHandler ⟨none⟩ req learning (.ok i d) insertOk
        = if insertOk then
            ⟨200, true, some (buildLearningContext learning), true, true, none⟩
          else ⟨500, true, some (buildLearningContext learning), true, false, none⟩ := by
      unfold generateDraftHandler
      rw [hm, if_neg (by simp), ha, if_neg (by decide), hr]
      simp only [ht, Bool.false_eq_true, if_false]
    rw [heq]
    cases insertOk
    · exact ⟨by simp, by simp, by simp⟩
    · exact ⟨by simp, by simp, by simp⟩

/-- C10 witness: a concrete request with header "Bearer undefined"
against an unset secret reaches the model and is not rejected. -/
theorem bearer_undefined_bypass_witness :
    (generateDraftHandler ⟨none⟩ ⟨"POST", some "Bearer undefined", some okItem⟩
        (.ok []) (.ok "i" "d") true).status ≠ 401
    ∧ (generateDraftHandler ⟨none⟩ ⟨"POST", some "Bearer undefined", some okItem⟩
        (.ok []) (.ok "i" "d") true).learningQueried = true
    ∧ (generateDraftHandler ⟨none⟩ ⟨"POST", some "Bearer undefined", some okItem⟩
        (.ok []) (.ok "i" "d") true).modelCalled = true :=
  bearer_undefined_bypass _ _ _ _ okItem rfl rfl rfl (by decide)

/-- C8 counterexample: a collector run of `src/unnamed/part_001` whose
single draft trigger fails logs the failure, yet its success response
carries exactly the keys message, inserted and skipped_duplicates —
no draftTriggerFailures counter appears in the returned payload. -/
theorem writer_response_fields_cex :
    (collectRun001 okInsert (fun _ => false) [] [p7n]).draftFails = 1
    ∧ ((collectorResponse (collectRun001 okInsert (fun _ => false) [] [p7n])).map
        Prod.fst) = ["message", "inserted", "skipped_duplicates"] := by
  exact ⟨by decide, by decide⟩

theorem writerStep_triple (insertO : NewsRecord → InsertOutcome)
    (d1 d2 : NewsRecord → Bool) (s1 s2 : WriterState) (r : NewsRecord)
    (h1 : s1.store = s2.store) (h2 : s1.inserted = s2.inserted)
    (h3 : s1.dups = s2.dups) :
    (writerStep insertO d1 s1 r).store = (writerStep insertO d2 s2 r).store
    ∧ (writerStep insertO d1 s1 r).inserted = (writerStep insertO d2 s2 r).inserted
    ∧ (writerStep insertO d1 s1 r).dups = (writerStep insertO d2 s2 r).dups := by
  have hres : insertResult insertO s1.store r = insertResult insertO s2.store r := by
    rw [insertResult, insertResult, h1]
  unfold writerStep
  rw [hres]
  cases insertResult insertO s2.store r with
  | dupKey => exact ⟨h1, h2, by rw [h3]⟩
  | otherErr => exact ⟨h1, h2, h3⟩
  | ok =>
    cases hd1 : d1 r <;> cases hd2 : d2 r <;>
      exact ⟨by simp [h1], by simp [h2], by simp [h3]⟩

theorem writerRun_draft_independent (insertO : NewsRecord → InsertOutcome)
    (d1 d2 : NewsRecord → Bool) (rs : List NewsRecord) (s1 s2 : WriterState)
    (h1 : s1.store = s2.store) (h2 : s1.inserted = s2.inserted)
    (h3 : s1.dups = s2.dups) :
    (rs.foldl (writerStep insertO d1) s1).store
        = (rs.foldl (writerStep insertO d2) s2).store
    ∧ (rs.foldl (writerStep insertO d1) s1).inserted
        = (rs.foldl (writerStep insertO d2) s2).inserted
    ∧ (rs.foldl (writerStep insertO d1) s1).dups
        = (rs.foldl (writerStep insertO d2) s2).dups := by
  induction rs generalizing s1 s2 with
  | nil => exact ⟨h1, h2, h3⟩
  | cons a as ih =>
    rw [List.foldl_cons, List.foldl_cons]
    obtain ⟨g1, g2, g3⟩ := writerStep_triple insertO d1 d2 s1 s2 a h1 h2 h3
    exact ih _ _ g1 g2 g3

/-- C8 (amended): the insert loop of `src/unnamed/part_001` processes
each record independently — a unique-constraint hit only increments the
duplicate counter and the loop continues; any other per-record insert
error leaves the state untouched (it is logged, not counted) and the
loop continues; the draft-trigger outcome influences neither the store
nor the inserted/duplicate counters; and the success response carries
exactly the counters inserted and skipped_duplicates, with no count of
draft-trigger failures. -/
theorem writer_isolation_amended (insertO : NewsRecord → InsertOutcome)
    (draftO draftO2 : NewsRecord → Bool) (store : List NewsRecord)
    (rs : List NewsRecord) (s : WriterState) (r : NewsRecord) :
    ((writerRun insertO draftO store rs).store
        = (writerRun insertO draftO2 store rs).store
      ∧ (writerRun insertO draftO store rs).inserted
        = (writerRun insertO draftO2 store rs).inserted
      ∧ (writerRun insertO draftO store rs).dups
        = (writerRun insertO draftO2 store rs).dups)
    ∧ ((collectorResponse (writerRun insertO draftO store rs)).map Prod.fst
        = ["message", "inserted", "skipped_duplicates"])
    ∧ (hasId s.store r.cp_id = true →
        writerStep insertO draftO s r = { s with dups := s.dups + 1 })
    ∧ (hasId s.store r.cp_id = false → insertO r = .otherErr →
        writerStep insertO draftO s r = s) := by
  refine ⟨?_, rfl, ?_, ?_⟩
  · exact writerRun_draft_independent insertO draftO draftO2 rs _ _ rfl rfl rfl
  · intro h
    unfold writerStep insertResult
    rw [if_pos h]
  · intro h hoth
    unfold writerStep insertResult
    rw [if_neg (by simp [h]), hoth]

/-- C8 witness: the amended statement instantiated on a one-record
batch, a failing draft trigger, a store already holding the record and
an always-failing insert oracle. -/
theorem writer_isolation_amended_witness :
    ((writerRun (fun _ => .otherErr) (fun _ => false) [] [toRecord p7n]).store
        = (writerRun (fun _ => .otherErr) (fun _ => true) [] [toRecord p7n]).store
      ∧ (writerRun (fun _ => .otherErr) (fun _ => false) [] [toRecord p7n]).inserted
        = (writerRun (fun _ => .otherErr) (fun _ => true) [] [toRecord p7n]).inserted
      ∧ (writerRun (fun _ => .otherErr) (fun _ => false) [] [toRecord p7n]).dups
        = (writerRun (fun _ => .otherErr) (fun _ => true) [] [toRecord p7n]).dups)
    ∧ ((collectorResponse (writerRun (fun _ => .otherErr) (fun _ => false) []
          [toRecord p7n])).map Prod.fst
        = ["message", "inserted", "skipped_duplicates"])
    ∧ (hasId [toRecord p7n] (toRecord p7n).cp_id = true →
        writerStep (fun _ => .otherErr) (fun _ => false)
            ⟨[toRecord p7n], 0, 0, 0⟩ (toRecord p7n)
          = { store := [toRecord p7n], inserted := 0, dups := 0 + 1, draftFails := 0 })
    ∧ (hasId [toRecord p7n] (toRecord p7n).cp_id = false →
        (fun _ => InsertOutcome.otherErr) (toRecord p7n) = .otherErr →
        writerStep (fun _ => .otherErr) (fun _ => false)
            ⟨[toRecord p7n], 0, 0, 0⟩ (toRecord p7n)
          = ⟨[toRecord p7n], 0, 0, 0⟩) :=
  writer_isolation_amended (fun _ => .otherErr) (fun _ => false) (fun _ => true)
    [] [toRecord p7n] ⟨[toRecord p7n], 0, 0, 0⟩ (toRecord p7n)

theorem handler_status_indep (env : GenEnv) (req : GenRequest)
    (gemini : GeminiOutcome) (insertOk : Bool)
    (l1 l2 : Except Unit (List DraftRow)) :
    (generateDraftHandler env req l1 gemini insertOk).status
      = (generateDraftHandler env req l2 gemini insertOk).status := by
  unfold generateDraftHandler
  split
  · rfl
  · split
    · rfl
    · split
      · rfl
      · split
        · rfl
        · split
          · split <;> rfl
          · split <;> rfl

theorem handler_error_ctx (env : GenEnv) (req : GenRequest)
    (gemini : GeminiOutcome) (insertOk : Bool) :
    (generateDraftHandler env req (.error ()) gemini insertOk).contextUsed = none
    ∨ (generateDraftHandler env req (.error ()) gemini insertOk).contextUsed
        = some defaultContext := by
  unfold generateDraftHandler
  split
  · exact Or.inl rfl
  · split
    · exact Or.inl rfl
    · split
      · exact Or.inl rfl
      · split
        · exact Or.inl rfl
        · split
          · split
            · exact Or.inr rfl
            · exact Or.inr rfl
          · split
            · exact Or.inr rfl
            · exact Or.inr rfl

/-- C9: the learning-context selector of `src/api/generate-draft.js`
returns only Drafts with non-null final approved text, at most 10 of
them, ordered by engagement score descending (a null score sorting
first, as the database does on a descending order), drawn from and —
when at most 10 qualify — exactly covering the qualifying Drafts; with
zero qualifying Drafts the generator uses the fixed "no history"
default context, and a failing selector query degrades generation to
that same default context without changing the outcome status of the
operation. -/
theorem learning_selector_spec (rows : List DraftRow) (env : GenEnv)
    (req : GenRequest) (gemini : GeminiOutcome) (insertOk : Bool)
    (learning learning2 : Except Unit (List DraftRow)) :
    (∀ r ∈ selectorQuery rows, qualifies r = true)
    ∧ (selectorQuery rows).length ≤ 10
    ∧ List.Sorted scoreRel (selectorQuery rows)
    ∧ List.Subperm (selectorQuery rows) (rows.filter qualifies)
    ∧ ((rows.filter qualifies).length ≤ 10 →
        List.Perm (selectorQuery rows) (rows.filter qualifies))
    ∧ (rows.filter qualifies = [] →
        buildLearningContext (.ok (selectorQuery rows)) = defaultContext)
    ∧ buildLearningContext (.error ()) = defaultContext
    ∧ (generateDraftHandler env req learning gemini insertOk).status
        = (generateDraftHandler env req learning2 gemini insertOk).status
    ∧ ((generateDraftHandler env req (.error ()) gemini insertOk).contextUsed = none
        ∨ (generateDraftHandler env req (.error ()) gemini insertOk).contextUsed
            = some defaultContext) := by
  refine ⟨?_, ?_, ?_, ?_, ?_, ?_, rfl, ?_, ?_⟩
  · intro r hr
    exact List.of_mem_filter
      ((List.perm_insertionSort scoreRel _).mem_iff.mp (List.mem_of_mem_take hr))
  · exact (List.insertionSort scoreRel (rows.filter qualifies)).length_take_le 10
  · exact (List.sorted_insertionSort scoreRel (rows.filter qualifies)).sublist
      (List.take_sublist 10 _)
  · exact ((List.take_sublist 10 _).subperm).trans
      (List.perm_insertionSort scoreRel _).subperm
  · intro h
    unfold selectorQuery
    rw [List.take_of_length_le
      (by rw [(List.perm_insertionSort scoreRel _).length_eq]; exact h)]
    exact List.perm_insertionSort scoreRel _
  · intro h
    unfold selectorQuery
    rw [h]
    rfl
  · exact handler_status_indep env req gemini insertOk learning learning2
  · exact handler_error_ctx env req gemini insertOk

/-- C9 witness: the selector properties instantiated on a concrete
two-row table with one qualifying Draft. -/
theorem learning_selector_spec_witness :
    (∀ r ∈ selectorQuery [⟨some "a", some 3⟩, ⟨none, some 9⟩],
        qualifies r = true)
    ∧ (selectorQuery [⟨some "a", some 3⟩, ⟨none, some 9⟩]).length ≤ 10
    ∧ List.Sorted scoreRel (selectorQuery [⟨some "a", some 3⟩, ⟨none, some 9⟩])
    ∧ List.Subperm (selectorQuery [⟨some "a", some 3⟩, ⟨none, some 9⟩])
        (([⟨some "a", some 3⟩, ⟨none, some 9⟩] : List DraftRow).filter qualifies)
    ∧ ((([⟨some "a", some 3⟩, ⟨none, some 9⟩] : List DraftRow).filter
            qualifies).length ≤ 10 →
        List.Perm (selectorQuery [⟨some "a", some 3⟩, ⟨none, some 9⟩])
          (([⟨some "a", some 3⟩, ⟨none, some 9⟩] : List DraftRow).filter qualifies))
    ∧ (([⟨some "a", some 3⟩, ⟨none, some 9⟩] : List DraftRow).filter qualifies = [] →
        buildLearningContext
            (.ok (selectorQuery [⟨some "a", some 3⟩, ⟨none, some 9⟩]))
          = defaultContext)
    ∧ buildLearningContext (.error ()) = defaultContext
    ∧ (generateDraftHandler ⟨some "s"⟩ ⟨"POST", none, none⟩ (.ok []) (.ok "i" "d")
          true).status
        = (generateDraftHandler ⟨some "s"⟩ ⟨"POST", none, none⟩ (.error ())
            (.ok "i" "d") true).status
    ∧ ((generateDraftHandler ⟨some "s"⟩ ⟨"POST", none, none⟩ (.error ())
            (.ok "i" "d") true).contextUsed = none
        ∨ (generateDraftHandler ⟨some "s"⟩ ⟨"POST", none, none⟩ (.error ())
            (.ok "i" "d") true).contextUsed = some defaultContext) :=
  learning_selector_spec [⟨some "a", some 3⟩, ⟨none, some 9⟩] ⟨some "s"⟩
    ⟨"POST", none, none⟩ (.ok "i" "d") true (.ok []) (.error ())

end SocialNews
